import Mathlib

/-!
Shallow embedding of `src/notifier-endpoint/api/notifier.js`.

The JavaScript file exports a single serverless `handler(req, res)` that
persists and retrieves an Upstox access token in a Vercel blob store.
We model the blob store as a list of blobs, the handler as a pure function
from an environment (current time, configuration, and success/failure of
each outgoing blob-store HTTP call) and a store to a response, a new store,
and the trace of blob-store operations the handler issued.
-/

/-- Models `const TOKEN_PREFIX = "upstox_access_token"` (notifier.js line 2). -/
def TOKEN_PREFIX : String := "upstox_access_token"

/-- The JSON object written on POST (notifier.js lines 39-47).
`expires_at`, `issued_at`, `client_id`, `user_id` come from the request body
and may be absent (`undefined` is dropped by `JSON.stringify`). -/
structure TokenData where
  access_token : String
  expires_at : Option Int
  issued_at : Option String
  client_id : Option String
  user_id : Option String
  stored_at : String
  expires_in_hours : Option Int
deriving DecidableEq

/-- A blob as returned by the store's list call: pathname, url and
`uploadedAt` (modelled as epoch millis), plus its stored content. -/
structure Blob where
  pathname : String
  url : String
  uploadedAt : Int
  content : TokenData
deriving DecidableEq

/-- The fields destructured from `req.body` on POST (notifier.js line 29).
`expires_at` is modelled after `parseInt` as epoch millis. -/
structure ReqBody where
  access_token : Option String
  expires_at : Option Int
  issued_at : Option String
  client_id : Option String
  user_id : Option String
deriving DecidableEq

/-- Models `req.method`. -/
inductive Method where
  | GET
  | POST
  | OPTIONS
  | other (name : String)
deriving DecidableEq

/-- Printed method name, used in the 405 message. -/
def Method.name : Method → String
  | .GET => "GET"
  | .POST => "POST"
  | .OPTIONS => "OPTIONS"
  | .other s => s

structure Request where
  method : Method
  body : ReqBody
deriving DecidableEq

/-- The JSON response. `none` in an `Option` field means the field is absent
from the response body (the bare `res.status(200).end()` for OPTIONS has
every field absent). `expires_in_hours`, `client_id`, `user_id` can be
present with value `null`, hence the nested options. -/
structure Response where
  status : Nat
  success : Option Bool := none
  message : Option String := none
  access_token : Option String := none
  expires_at : Option Int := none
  expires_in_hours : Option (Option Int) := none
  client_id : Option (Option String) := none
  user_id : Option (Option String) := none
  stored_at : Option String := none
  is_valid : Option Bool := none
  expired_at : Option Int := none
deriving DecidableEq

/-- One outgoing HTTP call to the blob store. -/
inductive BlobOp where
  | list (pre : String)
  | del (url : String)
  | put (pathname : String)
  | read (url : String)
deriving DecidableEq

/-- True for the operations that modify the store. -/
def BlobOp.mutates : BlobOp → Bool
  | .del _ => true
  | .put _ => true
  | _ => false

/-- Per-request environment: `process.env.BLOB_READ_WRITE_TOKEN` (absent or
present), the request time (`Date.now()` in millis and its ISO rendering),
and the outcome of each outgoing call: whether the list call returns ok
(`listOk`, with its HTTP status when it does not), which DELETE calls
actually remove their blob (`deleteOk`), whether the PUT succeeds, and
whether fetching the chosen blob's content succeeds. -/
structure Env where
  blobToken : Option String
  now : Int
  nowISO : String
  listOk : Bool
  listStatus : Nat
  deleteOk : String → Bool
  putOk : Bool
  fetchOk : Bool
  fetchStatus : Nat

/-- JavaScript truthiness of an optional string: absent and `""` are falsy.
Models `!process.env.BLOB_READ_WRITE_TOKEN` and `!access_token`. -/
def strTruthy : Option String → Bool
  | none => false
  | some s => !(s == "")

/-- Models `1000 * 60 * 60`. -/
def msPerHour : Int := 1000 * 60 * 60

/-- Models `Math.round(num / den)` for integer `num` and positive integer `den`:
JavaScript rounds half toward positive infinity, i.e. `⌊x + 1/2⌋`. -/
def jsRound (num den : Int) : Int := Int.fdiv (2 * num + den) (2 * den)

/-- Models `expires_at ? Math.round((new Date(parseInt(expires_at)) - new Date()) / (1000*60*60)) : null`. -/
def expiresInHoursFrom (now : Int) : Option Int → Option Int
  | none => none
  | some e => some (jsRound (e - now) msPerHour)

/-- Models `s.startsWith pre`, computed on the character lists. -/
def strStartsWith (s pre : String) : Bool := pre.data.isPrefixOf s.data

/-- The blobs returned by `fetch(baseUrl?prefix=TOKEN_PREFIX)`: those whose
pathname starts with the prefix, in store order. -/
def listTokenBlobs (store : List Blob) : List Blob :=
  store.filter (fun b => strStartsWith b.pathname TOKEN_PREFIX)

/-- The sort comparator `(a, b) => new Date(b.uploadedAt) - new Date(a.uploadedAt)`:
descending by `uploadedAt`, keeping `a` before `b` when `b.uploadedAt ≤ a.uploadedAt`. -/
def blobDescLe (a b : Blob) : Bool := decide (b.uploadedAt ≤ a.uploadedAt)

/-- Models `listData.blobs.sort(...)[0]` (notifier.js lines 146-148). -/
def latestTokenFile (bs : List Blob) : Option Blob :=
  (bs.mergeSort blobDescLe).head?

/-- Models the template literal building the unique filename from the
prefix and `Date.now()` (notifier.js line 84). -/
def uniqueFilename (now : Int) : String :=
  TOKEN_PREFIX ++ "_" ++ toString now ++ ".json"

def baseUrl : String := "https://blob.vercel-storage.com"

/-- The `tokenData` object built on POST (notifier.js lines 39-47). -/
def mkTokenData (env : Env) (body : ReqBody) : TokenData :=
  { access_token := body.access_token.getD ""
    expires_at := body.expires_at
    issued_at := body.issued_at
    client_id := body.client_id
    user_id := body.user_id
    stored_at := env.nowISO
    expires_in_hours := expiresInHoursFrom env.now body.expires_at }

/-- Result of a handler run: the HTTP response, the blob store afterwards,
and the trace of blob-store calls issued. -/
structure HandlerResult where
  resp : Response
  store : List Blob
  ops : List BlobOp
deriving DecidableEq

/-- Decides whether the character list contains `pat` as a contiguous
segment. -/
def charsContain (pat : List Char) : List Char → Bool
  | [] => pat.isEmpty
  | c :: rest => pat.isPrefixOf (c :: rest) || charsContain pat rest

/-- Models `getError.message?.includes(pat)`. -/
def containsStr (s pat : String) : Bool := charsContain pat.data s.data

/-- The GET catch block (notifier.js lines 187-202): 404 when the error
message mentions `404` or `not found`, 500 otherwise. -/
def getCatchResp (msg : String) : Response :=
  if containsStr msg "404" || containsStr msg "not found" then
    { status := 404, success := some false
      message := some "No access token found. Please generate a new token first." }
  else
    { status := 500, success := some false
      message := some "Failed to retrieve token" }

/-- The POST branch (notifier.js lines 27-119). -/
def handlePost (env : Env) (store : List Blob) (body : ReqBody) : HandlerResult :=
  if !(strTruthy body.access_token) then
    { resp := { status := 400, success := some false
                message := some "access_token is required" }
      store := store, ops := [] }
  else
    let tokenData := mkTokenData env body
    -- cleanup: list existing token files, issue a DELETE for each; any
    -- failure is logged and ignored (lines 51-81)
    let listed := if env.listOk then listTokenBlobs store else []
    let deleteOps := listed.map (fun b => BlobOp.del b.url)
    let afterCleanup :=
      if env.listOk then
        store.filter (fun b => !(strStartsWith b.pathname TOKEN_PREFIX && env.deleteOk b.url))
      else store
    let fn := uniqueFilename env.now
    let ops := BlobOp.list TOKEN_PREFIX :: deleteOps ++ [BlobOp.put fn]
    if env.putOk then
      { resp := { status := 200, success := some true
                  message := some "Access token updated successfully"
                  expires_in_hours := some tokenData.expires_in_hours
                  stored_at := some env.nowISO
                  client_id := some tokenData.client_id }
        store := { pathname := fn, url := baseUrl ++ "/" ++ fn
                   uploadedAt := env.now, content := tokenData } :: afterCleanup
        ops := ops }
    else
      { resp := { status := 500, success := some false
                  message := some "Failed to update access token" }
        store := afterCleanup, ops := ops }

/-- Models `tokenData.expires_at && new Date() > new Date(parseInt(tokenData.expires_at))`. -/
def isExpiredAt (now : Int) : Option Int → Bool
  | none => false
  | some e => decide (e < now)

/-- The GET branch (notifier.js lines 121-203). -/
def handleGet (env : Env) (store : List Blob) : HandlerResult :=
  if !env.listOk then
    { resp := getCatchResp ("Failed to list token files: " ++ toString env.listStatus)
      store := store, ops := [BlobOp.list TOKEN_PREFIX] }
  else
    match latestTokenFile (listTokenBlobs store) with
    | none =>
      { resp := { status := 404, success := some false
                  message := some "No access token found. Please generate a new token first." }
        store := store, ops := [BlobOp.list TOKEN_PREFIX] }
    | some latest =>
      if !env.fetchOk then
        { resp := getCatchResp ("Failed to fetch token content: " ++ toString env.fetchStatus)
          store := store, ops := [BlobOp.list TOKEN_PREFIX, BlobOp.read latest.url] }
      else
        let td := latest.content
        if isExpiredAt env.now td.expires_at then
          { resp := { status := 410, success := some false
                      message := some "Token has expired. Please generate a new token."
                      expired_at := td.expires_at }
            store := store, ops := [BlobOp.list TOKEN_PREFIX, BlobOp.read latest.url] }
        else
          { resp := { status := 200, success := some true
                      access_token := some td.access_token
                      expires_at := td.expires_at
                      expires_in_hours := some (expiresInHoursFrom env.now td.expires_at)
                      client_id := some td.client_id
                      user_id := some td.user_id
                      stored_at := some td.stored_at
                      is_valid := some true }
            store := store, ops := [BlobOp.list TOKEN_PREFIX, BlobOp.read latest.url] }

/-- The exported `handler` (notifier.js lines 4-219): OPTIONS short-circuits
with a bare 200, then the `BLOB_READ_WRITE_TOKEN` check, then dispatch on
method, with 405 for anything other than GET/POST/OPTIONS. -/
def handler (env : Env) (store : List Blob) (req : Request) : HandlerResult :=
  if req.method = Method.OPTIONS then
    { resp := { status := 200 }, store := store, ops := [] }
  else if !(strTruthy env.blobToken) then
    { resp := { status := 500, success := some false
                message := some "Blob storage not configured" }
      store := store, ops := [] }
  else
    match req.method with
    | Method.POST => handlePost env store req.body
    | Method.GET => handleGet env store
    | m =>
      { resp := { status := 405, success := some false
                  message := some ("Method " ++ m.name ++ " not allowed") }
        store := store, ops := [] }

/-- A request body with every field absent. -/
def emptyBody : ReqBody :=
  { access_token := none, expires_at := none, issued_at := none
    client_id := none, user_id := none }

/-! Concrete fixtures used by witnesses and counterexamples. -/

/-- An environment in which every blob-store call succeeds. -/
def envAll : Env :=
  { blobToken := some "tok", now := 1000000, nowISO := "2025-01-01T00:00:00.000Z"
    listOk := true, listStatus := 500, deleteOk := fun _ => true
    putOk := true, fetchOk := true, fetchStatus := 500 }

/-- Like `envAll` but every DELETE call fails (blob not removed). -/
def envNoDel : Env :=
  { envAll with deleteOk := fun _ => false }

/-- Like `envAll` but the store PUT fails. -/
def envNoPut : Env :=
  { envAll with putOk := false }

/-- Like `envAll` but `BLOB_READ_WRITE_TOKEN` is unset. -/
def envNoCfg : Env :=
  { envAll with blobToken := none }

/-- A POST body carrying a token that expires at epoch-millis 5000000. -/
def bodyTok : ReqBody :=
  { access_token := some "abc", expires_at := some 5000000, issued_at := some "1"
    client_id := some "c", user_id := some "u" }

/-- A POST body with a token and no expiry. -/
def bodyNoExp : ReqBody :=
  { access_token := some "abc", expires_at := none, issued_at := none
    client_id := none, user_id := none }

def tdOld : TokenData :=
  { access_token := "old", expires_at := some 5000000, issued_at := some "1"
    client_id := some "c", user_id := some "u", stored_at := "2024-12-31T00:00:00.000Z"
    expires_in_hours := some 1 }

def tdNoExp : TokenData :=
  { tdOld with expires_at := none, expires_in_hours := none }

def tdExpired : TokenData :=
  { tdOld with expires_at := some 10 }

/-- A prefix-named blob uploaded at time 1. -/
def blobOld : Blob :=
  { pathname := "upstox_access_token_1.json"
    url := "https://blob.vercel-storage.com/upstox_access_token_1.json"
    uploadedAt := 1, content := tdOld }

/-- A prefix-named blob uploaded later, at time 5. -/
def blobNew : Blob :=
  { pathname := "upstox_access_token_5.json"
    url := "https://blob.vercel-storage.com/upstox_access_token_5.json"
    uploadedAt := 5, content := tdExpired }

/-- A prefix-named blob holding a record with no `expires_at`. -/
def blobNoExp : Blob :=
  { pathname := "upstox_access_token_7.json"
    url := "https://blob.vercel-storage.com/upstox_access_token_7.json"
    uploadedAt := 7, content := tdNoExp }

set_option maxRecDepth 16384

/-! Helper lemmas. -/

theorem blobDescLe_trans (a b c : Blob) (hab : blobDescLe a b) (hbc : blobDescLe b c) :
    blobDescLe a c := by
  simp only [blobDescLe, decide_eq_true_eq] at *
  omega

theorem blobDescLe_total (a b : Blob) : blobDescLe a b || blobDescLe b a := by
  simp only [blobDescLe, Bool.or_eq_true, decide_eq_true_eq]
  omega

/-- The head of the descending sort has maximal `uploadedAt`. -/
theorem latestTokenFile_max (bs : List Blob) (lb : Blob)
    (h : latestTokenFile bs = some lb) :
    ∀ b ∈ bs, b.uploadedAt ≤ lb.uploadedAt := by
  intro b hb
  have hmem : b ∈ bs.mergeSort blobDescLe := List.mem_mergeSort.mpr hb
  have hsorted := List.sorted_mergeSort blobDescLe_trans blobDescLe_total bs
  unfold latestTokenFile at h
  cases hl : bs.mergeSort blobDescLe with
  | nil => rw [hl] at h; simp at h
  | cons x t =>
    rw [hl] at h hmem hsorted
    simp only [List.head?_cons, Option.some.injEq] at h
    subst h
    rcases List.mem_cons.mp hmem with rfl | ht
    · exact le_refl _
    · have := (List.pairwise_cons.mp hsorted).1 b ht
      simpa [blobDescLe] using this

/-- The selection returns `none` exactly on the empty listing. -/
theorem latestTokenFile_eq_none (bs : List Blob) :
    latestTokenFile bs = none ↔ bs = [] := by
  unfold latestTokenFile
  rw [List.head?_eq_none_iff]
  constructor
  · intro h
    have := List.mergeSort_perm bs blobDescLe
    rw [h] at this
    exact (List.Perm.nil_eq this).symm
  · intro h; subst h; simp

/-- The chosen blob is one of the listed blobs. -/
theorem latestTokenFile_mem (bs : List Blob) (lb : Blob)
    (h : latestTokenFile bs = some lb) : lb ∈ bs := by
  unfold latestTokenFile at h
  cases hl : bs.mergeSort blobDescLe with
  | nil => rw [hl] at h; simp at h
  | cons x t =>
    rw [hl] at h
    simp only [List.head?_cons, Option.some.injEq] at h
    have hmem : lb ∈ bs.mergeSort blobDescLe := by
      rw [hl, ← h]; exact List.mem_cons_self _ _
    exact List.mem_mergeSort.mp hmem

/-- The GET branch never changes the store and only issues list/read calls. -/
theorem handleGet_frame (env : Env) (store : List Blob) :
    (handleGet env store).store = store ∧
    ∀ op ∈ (handleGet env store).ops, op.mutates = false := by
  unfold handleGet
  split
  · exact ⟨rfl, by intro op hop; simp at hop; subst hop; rfl⟩
  · split
    · exact ⟨rfl, by intro op hop; simp at hop; subst hop; rfl⟩
    · split
      · exact ⟨rfl, by intro op hop; simp at hop; rcases hop with rfl | rfl <;> rfl⟩
      · dsimp only
        split
        · exact ⟨rfl, by intro op hop; simp at hop; rcases hop with rfl | rfl <;> rfl⟩
        · exact ⟨rfl, by intro op hop; simp at hop; rcases hop with rfl | rfl <;> rfl⟩

/-- C8: a GET request never modifies the blob store: the result store is the
input store unchanged, and every blob-store call the GET branch issues is a
list or a read, never a DELETE or a PUT. -/
theorem get_read_only (env : Env) (store : List Blob) (body : ReqBody) :
    (handler env store { method := Method.GET, body := body }).store = store ∧
    ∀ op ∈ (handler env store { method := Method.GET, body := body }).ops,
      op.mutates = false := by
  unfold handler
  simp only
  split
  · simp_all
  · split
    · exact ⟨rfl, by intro op hop; simp at hop⟩
    · exact handleGet_frame env store

/-- C9: with `BLOB_READ_WRITE_TOKEN` unset or empty, GET and POST answer
500 / `success: false` / "Blob storage not configured" without issuing any
blob-store call, while OPTIONS still answers 200 before the check. -/
theorem unconfigured_returns_500 (env : Env) (store : List Blob) (req : Request)
    (hcfg : strTruthy env.blobToken = false)
    (hm : req.method = Method.GET ∨ req.method = Method.POST) :
    (handler env store req).resp.status = 500 ∧
    (handler env store req).resp.success = some false ∧
    (handler env store req).resp.message = some "Blob storage not configured" ∧
    (handler env store req).ops = [] ∧
    (handler env store { method := Method.OPTIONS, body := req.body }).resp.status
      = 200 := by
  obtain ⟨m, body⟩ := req
  rcases hm with hm | hm <;> (subst hm; simp [handler, hcfg])

/-- Witness for C9 at a concrete unconfigured environment. -/
theorem unconfigured_returns_500_witness :
    strTruthy envNoCfg.blobToken = false ∧
    (handler envNoCfg [blobOld] { method := Method.GET, body := emptyBody }).resp.status
      = 500 := by
  refine ⟨by decide, ?_⟩
  exact (unconfigured_returns_500 envNoCfg [blobOld]
    { method := Method.GET, body := emptyBody } (by decide) (Or.inl rfl)).1

/-- C5: error-to-status mapping: POST without `access_token` answers 400;
GET with an empty prefix listing answers 404; POST whose store PUT fails
answers 500; any method other than GET/POST/OPTIONS answers 405 — each with
`success: false`. -/
theorem handler_error_status_mapping (env : Env) (store : List Blob)
    (hcfg : strTruthy env.blobToken = true) :
    (∀ body : ReqBody, strTruthy body.access_token = false →
      (handler env store { method := Method.POST, body := body }).resp.status = 400 ∧
      (handler env store { method := Method.POST, body := body }).resp.success
        = some false) ∧
    (∀ body : ReqBody, env.listOk = true → listTokenBlobs store = [] →
      (handler env store { method := Method.GET, body := body }).resp.status = 404 ∧
      (handler env store { method := Method.GET, body := body }).resp.success
        = some false) ∧
    (∀ body : ReqBody, strTruthy body.access_token = true → env.putOk = false →
      (handler env store { method := Method.POST, body := body }).resp.status = 500 ∧
      (handler env store { method := Method.POST, body := body }).resp.success
        = some false) ∧
    (∀ (s : String) (body : ReqBody),
      (handler env store { method := Method.other s, body := body }).resp.status = 405 ∧
      (handler env store { method := Method.other s, body := body }).resp.success
        = some false) := by
  refine ⟨?_, ?_, ?_, ?_⟩
  · intro body htok
    simp [handler, handlePost, hcfg, htok]
  · intro body hlist hempty
    simp [handler, handleGet, hcfg, hlist, hempty, latestTokenFile]
  · intro body htok hput
    simp [handler, handlePost, hcfg, htok, hput]
  · intro s body
    simp [handler, hcfg]

/-- Witness for C5 at concrete requests against an environment whose PUT
fails. -/
theorem handler_error_status_mapping_witness :
    (handler envNoPut [] { method := Method.POST, body := emptyBody }).resp.status
      = 400 ∧
    (handler envNoPut [] { method := Method.GET, body := emptyBody }).resp.status
      = 404 ∧
    (handler envNoPut [] { method := Method.POST, body := bodyTok }).resp.status
      = 500 ∧
    (handler envNoPut [] { method := Method.other "PUT", body := emptyBody }).resp.status
      = 405 := by
  have h := handler_error_status_mapping envNoPut [] (by decide)
  exact ⟨(h.1 emptyBody (by decide)).1,
         (h.2.1 emptyBody (by decide) (by decide)).1,
         (h.2.2.1 bodyTok (by decide) (by decide)).1,
         (h.2.2.2 "PUT" emptyBody).1⟩

/-- The generated filename always starts with the token prefix. -/
theorem strStartsWith_uniqueFilename (now : Int) :
    strStartsWith (uniqueFilename now) TOKEN_PREFIX = true := by
  simp only [strStartsWith, uniqueFilename, String.data_append]
  exact List.isPrefixOf_iff_prefix.mpr (List.prefix_append _ _)

/-- C1: a POST with a non-empty `access_token` answers 200 / `success: true`
when the store PUT succeeds, writes the token fields as a single record under
the fresh key `upstox_access_token_<now>.json` (which starts with the
prefix), and issues a DELETE for every key the prefix listing returned
before issuing the PUT. -/
theorem post_writes_unique_key_and_deletes_listed
    (env : Env) (store : List Blob) (body : ReqBody)
    (hcfg : strTruthy env.blobToken = true)
    (htok : strTruthy body.access_token = true)
    (hput : env.putOk = true) :
    (handler env store { method := Method.POST, body := body }).resp.status = 200 ∧
    (handler env store { method := Method.POST, body := body }).resp.success
      = some true ∧
    uniqueFilename env.now = TOKEN_PREFIX ++ "_" ++ toString env.now ++ ".json" ∧
    strStartsWith (uniqueFilename env.now) TOKEN_PREFIX = true ∧
    (∃ rest, (handler env store { method := Method.POST, body := body }).store =
      { pathname := uniqueFilename env.now
        url := baseUrl ++ "/" ++ uniqueFilename env.now
        uploadedAt := env.now
        content := mkTokenData env body } :: rest) ∧
    (handler env store { method := Method.POST, body := body }).ops =
      BlobOp.list TOKEN_PREFIX ::
        (if env.listOk then (listTokenBlobs store).map (fun b => BlobOp.del b.url)
         else []) ++ [BlobOp.put (uniqueFilename env.now)] := by
  refine ⟨?_, ?_, rfl, strStartsWith_uniqueFilename env.now, ?_, ?_⟩
  · simp [handler, handlePost, hcfg, htok, hput]
  · simp [handler, handlePost, hcfg, htok, hput]
  · refine ⟨(if env.listOk then store.filter
        (fun b => !(strStartsWith b.pathname TOKEN_PREFIX && env.deleteOk b.url))
      else store), ?_⟩
    simp [handler, handlePost, hcfg, htok, hput]
  · simp only [handler, handlePost, hcfg, htok, hput]
    cases hl : env.listOk <;> simp [hl]

/-- Witness for C1: a POST over a store holding one old token file. -/
theorem post_writes_unique_key_and_deletes_listed_witness :
    (handler envAll [blobOld] { method := Method.POST, body := bodyTok }).resp.status
      = 200 ∧
    (handler envAll [blobOld] { method := Method.POST, body := bodyTok }).resp.success
      = some true ∧
    uniqueFilename envAll.now = TOKEN_PREFIX ++ "_" ++ toString envAll.now ++ ".json" ∧
    strStartsWith (uniqueFilename envAll.now) TOKEN_PREFIX = true ∧
    (∃ rest, (handler envAll [blobOld] { method := Method.POST, body := bodyTok }).store =
      { pathname := uniqueFilename envAll.now
        url := baseUrl ++ "/" ++ uniqueFilename envAll.now
        uploadedAt := envAll.now
        content := mkTokenData envAll bodyTok } :: rest) ∧
    (handler envAll [blobOld] { method := Method.POST, body := bodyTok }).ops =
      BlobOp.list TOKEN_PREFIX ::
        (if envAll.listOk then (listTokenBlobs [blobOld]).map (fun b => BlobOp.del b.url)
         else []) ++ [BlobOp.put (uniqueFilename envAll.now)] :=
  post_writes_unique_key_and_deletes_listed envAll [blobOld] bodyTok
    (by decide) (by decide) rfl

/-- C6: cleanup is best-effort: whatever the outcome of the listing call and
of the individual DELETE calls, a POST with a token still issues the PUT and,
when the PUT succeeds, answers 200 / `success: true`; when the listing did
succeed, a DELETE is issued for every listed key. -/
theorem post_delete_best_effort (env : Env) (store : List Blob) (body : ReqBody)
    (hcfg : strTruthy env.blobToken = true)
    (htok : strTruthy body.access_token = true)
    (hput : env.putOk = true) :
    (handler env store { method := Method.POST, body := body }).resp.status = 200 ∧
    (handler env store { method := Method.POST, body := body }).resp.success
      = some true ∧
    (env.listOk = true → ∀ b ∈ listTokenBlobs store,
      BlobOp.del b.url ∈ (handler env store { method := Method.POST, body := body }).ops) ∧
    BlobOp.put (uniqueFilename env.now)
      ∈ (handler env store { method := Method.POST, body := body }).ops := by
  refine ⟨?_, ?_, ?_, ?_⟩
  · simp [handler, handlePost, hcfg, htok, hput]
  · simp [handler, handlePost, hcfg, htok, hput]
  · intro hl b hb
    simp [handler, handlePost, hcfg, htok, hput, hl]
    exact ⟨b, hb, rfl⟩
  · simp [handler, handlePost, hcfg, htok, hput]

/-- Witness for C6: the listing succeeds but every DELETE fails, and the
POST still answers 200 with the old key's DELETE having been issued. -/
theorem post_delete_best_effort_witness :
    (handler envNoDel [blobOld] { method := Method.POST, body := bodyTok }).resp.status
      = 200 ∧
    (handler envNoDel [blobOld] { method := Method.POST, body := bodyTok }).resp.success
      = some true ∧
    (envNoDel.listOk = true → ∀ b ∈ listTokenBlobs [blobOld],
      BlobOp.del b.url
        ∈ (handler envNoDel [blobOld] { method := Method.POST, body := bodyTok }).ops) ∧
    BlobOp.put (uniqueFilename envNoDel.now)
      ∈ (handler envNoDel [blobOld] { method := Method.POST, body := bodyTok }).ops :=
  post_delete_best_effort envNoDel [blobOld] bodyTok (by decide) (by decide) rfl

/-- C7: the record stored by a successful POST has exactly the fields
`access_token`, `expires_at`, `issued_at`, `client_id`, `user_id`,
`stored_at` (the request's ISO timestamp) and the derived
`expires_in_hours = Math.round((expires_at - now) / 3600000)` when
`expires_at` is present, `null` otherwise. -/
theorem post_stored_record_fields (env : Env) (store : List Blob) (body : ReqBody)
    (hcfg : strTruthy env.blobToken = true)
    (htok : strTruthy body.access_token = true)
    (hput : env.putOk = true) :
    ∃ rest, (handler env store { method := Method.POST, body := body }).store =
      { pathname := uniqueFilename env.now
        url := baseUrl ++ "/" ++ uniqueFilename env.now
        uploadedAt := env.now
        content :=
          { access_token := body.access_token.getD ""
            expires_at := body.expires_at
            issued_at := body.issued_at
            client_id := body.client_id
            user_id := body.user_id
            stored_at := env.nowISO
            expires_in_hours :=
              match body.expires_at with
              | some e => some (jsRound (e - env.now) msPerHour)
              | none => none } } :: rest := by
  refine ⟨(if env.listOk then store.filter
      (fun b => !(strStartsWith b.pathname TOKEN_PREFIX && env.deleteOk b.url))
    else store), ?_⟩
  simp [handler, handlePost, hcfg, htok, hput, mkTokenData, expiresInHoursFrom]
  cases body.expires_at <;> simp [expiresInHoursFrom]

/-- Witness for C7 at a concrete POST. -/
theorem post_stored_record_fields_witness :
    ∃ rest, (handler envAll [blobOld] { method := Method.POST, body := bodyTok }).store =
      { pathname := uniqueFilename envAll.now
        url := baseUrl ++ "/" ++ uniqueFilename envAll.now
        uploadedAt := envAll.now
        content :=
          { access_token := bodyTok.access_token.getD ""
            expires_at := bodyTok.expires_at
            issued_at := bodyTok.issued_at
            client_id := bodyTok.client_id
            user_id := bodyTok.user_id
            stored_at := envAll.nowISO
            expires_in_hours :=
              match bodyTok.expires_at with
              | some e => some (jsRound (e - envAll.now) msPerHour)
              | none => none } } :: rest :=
  post_stored_record_fields envAll [blobOld] bodyTok (by decide) (by decide) rfl

/-- Sorting a one-element listing picks that element. -/
theorem latestTokenFile_singleton (b : Blob) : latestTokenFile [b] = some b := by
  simp [latestTokenFile]

/-- C2: on GET with a non-empty prefix listing, the blob fetched is the one
selected by the descending `uploadedAt` sort: it is one of the listed blobs,
its `uploadedAt` is greater than or equal to that of every listed blob, and
the handler issues the read against its url. -/
theorem get_picks_max_uploadedAt (env : Env) (store : List Blob) (body : ReqBody)
    (hcfg : strTruthy env.blobToken = true)
    (hlist : env.listOk = true)
    (lb : Blob) (hlb : latestTokenFile (listTokenBlobs store) = some lb) :
    (∀ b ∈ listTokenBlobs store, b.uploadedAt ≤ lb.uploadedAt) ∧
    lb ∈ listTokenBlobs store ∧
    BlobOp.read lb.url
      ∈ (handler env store { method := Method.GET, body := body }).ops := by
  refine ⟨latestTokenFile_max _ _ hlb, latestTokenFile_mem _ _ hlb, ?_⟩
  simp only [handler, handleGet, hcfg, hlist, hlb]
  split_ifs <;> simp_all

-- Witness for C2: two listed token files, uploaded at times 1 and 5; the
-- blob uploaded at 5 is selected and read.
unseal List.merge List.mergeSort in
theorem get_picks_max_uploadedAt_witness :
    (∀ b ∈ listTokenBlobs [blobOld, blobNew], b.uploadedAt ≤ blobNew.uploadedAt) ∧
    blobNew ∈ listTokenBlobs [blobOld, blobNew] ∧
    BlobOp.read blobNew.url
      ∈ (handler envAll [blobOld, blobNew] { method := Method.GET, body := emptyBody }).ops :=
  get_picks_max_uploadedAt envAll [blobOld, blobNew] emptyBody
    (by decide) rfl blobNew (by decide)

/-- C3: once a stored record is fetched on GET, validity is decided by its
`expires_at`: when `expires_at` is present and the current time is strictly
past it, the answer is 410 / `success: false` with an `expired_at` field;
otherwise the answer is 200 / `success: true` / `is_valid: true` carrying
the stored `access_token`. -/
theorem get_validity_by_expiry (env : Env) (store : List Blob) (body : ReqBody)
    (hcfg : strTruthy env.blobToken = true)
    (hlist : env.listOk = true)
    (hfetch : env.fetchOk = true)
    (lb : Blob) (hlb : latestTokenFile (listTokenBlobs store) = some lb) :
    (isExpiredAt env.now lb.content.expires_at = true →
      ∃ e, lb.content.expires_at = some e ∧ e < env.now ∧
        (handler env store { method := Method.GET, body := body }).resp.status = 410 ∧
        (handler env store { method := Method.GET, body := body }).resp.success
          = some false ∧
        (handler env store { method := Method.GET, body := body }).resp.expired_at
          = some e) ∧
    (isExpiredAt env.now lb.content.expires_at = false →
      (handler env store { method := Method.GET, body := body }).resp.status = 200 ∧
      (handler env store { method := Method.GET, body := body }).resp.success
        = some true ∧
      (handler env store { method := Method.GET, body := body }).resp.is_valid
        = some true ∧
      (handler env store { method := Method.GET, body := body }).resp.access_token
        = some lb.content.access_token) := by
  constructor
  · intro hexp
    cases he : lb.content.expires_at with
    | none => rw [he] at hexp; simp [isExpiredAt] at hexp
    | some e =>
      rw [he] at hexp
      simp only [isExpiredAt, decide_eq_true_eq] at hexp
      refine ⟨e, rfl, hexp, ?_⟩
      simp [handler, handleGet, hcfg, hlist, hfetch, hlb, isExpiredAt, he, hexp]
  · intro hval
    simp [handler, handleGet, hcfg, hlist, hfetch, hlb, hval]

-- Witness for C3, applying the theorem once to a store whose newest record
-- is already expired (410 branch) and once to one still valid (200 branch).
theorem get_validity_by_expiry_witness :
    ((isExpiredAt envAll.now blobNew.content.expires_at = true →
      ∃ e, blobNew.content.expires_at = some e ∧ e < envAll.now ∧
        (handler envAll [blobNew] { method := Method.GET, body := emptyBody }).resp.status
          = 410 ∧
        (handler envAll [blobNew] { method := Method.GET, body := emptyBody }).resp.success
          = some false ∧
        (handler envAll [blobNew] { method := Method.GET, body := emptyBody }).resp.expired_at
          = some e)) ∧
    ((isExpiredAt envAll.now blobOld.content.expires_at = false →
      (handler envAll [blobOld] { method := Method.GET, body := emptyBody }).resp.status
        = 200 ∧
      (handler envAll [blobOld] { method := Method.GET, body := emptyBody }).resp.success
        = some true ∧
      (handler envAll [blobOld] { method := Method.GET, body := emptyBody }).resp.is_valid
        = some true ∧
      (handler envAll [blobOld] { method := Method.GET, body := emptyBody }).resp.access_token
        = some blobOld.content.access_token)) := by
  have h1 : listTokenBlobs [blobNew] = [blobNew] := by decide
  have h2 : latestTokenFile (listTokenBlobs [blobNew]) = some blobNew := by
    rw [h1]; exact latestTokenFile_singleton blobNew
  have h3 : listTokenBlobs [blobOld] = [blobOld] := by decide
  have h4 : latestTokenFile (listTokenBlobs [blobOld]) = some blobOld := by
    rw [h3]; exact latestTokenFile_singleton blobOld
  exact ⟨(get_validity_by_expiry envAll [blobNew] emptyBody
            (by decide) rfl rfl blobNew h2).1,
         (get_validity_by_expiry envAll [blobOld] emptyBody
            (by decide) rfl rfl blobOld h4).2⟩

/-- C10: a token stored without `expires_at` never expires: the POST stores
`expires_in_hours` as `null`, and a GET that retrieves such a record never
answers 410 but answers 200 / `is_valid: true` / `expires_in_hours: null`. -/
theorem no_expiry_token_treated_valid (env : Env) (store : List Blob) (body : ReqBody)
    (hcfg : strTruthy env.blobToken = true)
    (htok : strTruthy body.access_token = true)
    (hput : env.putOk = true)
    (hnoexp : body.expires_at = none)
    (hlist : env.listOk = true)
    (hfetch : env.fetchOk = true)
    (lb : Blob) (hlb : latestTokenFile (listTokenBlobs store) = some lb)
    (hlbexp : lb.content.expires_at = none) :
    ((handler env store { method := Method.POST, body := body }).store.head?.map
      (fun b => b.content.expires_in_hours)) = some none ∧
    (handler env store { method := Method.GET, body := body }).resp.status = 200 ∧
    (handler env store { method := Method.GET, body := body }).resp.status ≠ 410 ∧
    (handler env store { method := Method.GET, body := body }).resp.is_valid
      = some true ∧
    (handler env store { method := Method.GET, body := body }).resp.expires_in_hours
      = some none := by
  refine ⟨?_, ?_⟩
  · simp [handler, handlePost, hcfg, htok, hput, mkTokenData, hnoexp, expiresInHoursFrom]
  · simp [handler, handleGet, hcfg, hlist, hfetch, hlb, hlbexp, isExpiredAt,
      expiresInHoursFrom]

-- Witness for C10: a POST without expiry and a GET over a store whose only
-- record has no `expires_at`.
theorem no_expiry_token_treated_valid_witness :
    ((handler envAll [blobNoExp] { method := Method.POST, body := bodyNoExp }).store.head?.map
      (fun b => b.content.expires_in_hours)) = some none ∧
    (handler envAll [blobNoExp] { method := Method.GET, body := bodyNoExp }).resp.status
      = 200 ∧
    (handler envAll [blobNoExp] { method := Method.GET, body := bodyNoExp }).resp.status
      ≠ 410 ∧
    (handler envAll [blobNoExp] { method := Method.GET, body := bodyNoExp }).resp.is_valid
      = some true ∧
    (handler envAll [blobNoExp] { method := Method.GET, body := bodyNoExp }).resp.expires_in_hours
      = some none := by
  have h1 : listTokenBlobs [blobNoExp] = [blobNoExp] := by decide
  have h2 : latestTokenFile (listTokenBlobs [blobNoExp]) = some blobNoExp := by
    rw [h1]; exact latestTokenFile_singleton blobNoExp
  exact no_expiry_token_treated_valid envAll [blobNoExp] bodyNoExp
    (by decide) (by decide) rfl rfl rfl rfl blobNoExp h2 rfl

/-- Counterexample to C4 as stated: when the DELETE calls fail (which the
code deliberately ignores), a POST still answers 200 yet the old prefix key
survives next to the new one — two keys with the prefix remain. -/
theorem post_200_can_leave_stale_keys :
    (handler envNoDel [blobOld] { method := Method.POST, body := bodyTok }).resp.status
      = 200 ∧
    blobOld ∈ (handler envNoDel [blobOld] { method := Method.POST, body := bodyTok }).store ∧
    (listTokenBlobs
      (handler envNoDel [blobOld] { method := Method.POST, body := bodyTok }).store).length
      = 2 := by
  decide

/-- C4 (amended): after a POST answering 200 in which the listing succeeded
and every issued DELETE succeeded, the newly written key is the only key
with the prefix remaining in the store — replacement is delete-then-write,
not update-in-place. -/
theorem post_200_exactly_one_key_when_deletes_succeed
    (env : Env) (store : List Blob) (body : ReqBody)
    (hcfg : strTruthy env.blobToken = true)
    (htok : strTruthy body.access_token = true)
    (hput : env.putOk = true)
    (hlist : env.listOk = true)
    (hdel : ∀ b ∈ listTokenBlobs store, env.deleteOk b.url = true) :
    (handler env store { method := Method.POST, body := body }).resp.status = 200 ∧
    listTokenBlobs (handler env store { method := Method.POST, body := body }).store =
      [{ pathname := uniqueFilename env.now
         url := baseUrl ++ "/" ++ uniqueFilename env.now
         uploadedAt := env.now
         content := mkTokenData env body }] := by
  constructor
  · simp [handler, handlePost, hcfg, htok, hput]
  · have h1 : (handler env store { method := Method.POST, body := body })
        = handlePost env store body := by
      simp [handler, hcfg]
    have h2 : (handlePost env store body).store
        = { pathname := uniqueFilename env.now
            url := baseUrl ++ "/" ++ uniqueFilename env.now
            uploadedAt := env.now
            content := mkTokenData env body } :: store.filter
              (fun b => !(strStartsWith b.pathname TOKEN_PREFIX && env.deleteOk b.url)) := by
      simp [handlePost, htok, hput, hlist]
    have hstep : store.filter
        (fun b => !(strStartsWith b.pathname TOKEN_PREFIX && env.deleteOk b.url))
        = store.filter (fun b => !(strStartsWith b.pathname TOKEN_PREFIX)) := by
      apply List.filter_congr
      intro b hb
      cases hp : strStartsWith b.pathname TOKEN_PREFIX
      · simp [hp]
      · have hd := hdel b (List.mem_filter.mpr ⟨hb, hp⟩)
        simp [hp, hd]
    rw [h1, h2, hstep]
    simp [listTokenBlobs, strStartsWith_uniqueFilename, List.filter_filter]

-- Witness for the amended C4: all deletes succeed and exactly the new key
-- remains.
theorem post_200_exactly_one_key_when_deletes_succeed_witness :
    (handler envAll [blobOld] { method := Method.POST, body := bodyTok }).resp.status
      = 200 ∧
    listTokenBlobs (handler envAll [blobOld] { method := Method.POST, body := bodyTok }).store =
      [{ pathname := uniqueFilename envAll.now
         url := baseUrl ++ "/" ++ uniqueFilename envAll.now
         uploadedAt := envAll.now
         content := mkTokenData envAll bodyTok }] :=
  post_200_exactly_one_key_when_deletes_succeed envAll [blobOld] bodyTok
    (by decide) (by decide) rfl rfl (by decide)
